import Mathlib

/-!
# themoviedb: request building, response classification and image URLs

A shallow embedding of `tmdb.go` (package `themoviedb`).

* Go `string` values are Lean `String`s (valid UTF-8 text).
* Go `error` values are `Option GoError`; `none` is the `nil` error.
* A pointer that the code may find `nil` is an `Option`.
* A run-time panic (nil pointer dereference) is the `Outcome.panicked` result.
* The network (`(*http.Client).Get`) and the JSON decoder (`json.Unmarshal`)
  are not part of the package; they are fields of `Env`, so every statement
  holds for all transports and all decoders unless it names a particular one.
* The GET requests an operation issues are recorded, in order, in `Run.gets`.
-/

namespace Themoviedb

/-! ## Go runtime values -/

/-- Go `error` values: the ones built inside the package (`errors.New`,
`fmt.Errorf` without a wrapping verb) and the ones handed back by a library. -/
inductive GoError where
  | errorString (text : String)
  | library (pkg : String) (text : String)
deriving DecidableEq, Repr

/-- The `Error()` method: the message of an error value. -/
def GoError.Error : GoError → String
  | .errorString text => text
  | .library _ text => text

/-- Result of running a Go function: it returns, or it panics. -/
inductive Outcome (α : Type) where
  | returned (val : α)
  | panicked (reason : String)
deriving DecidableEq, Repr

/-- The runtime panic raised by a nil pointer dereference. -/
def nilDereference : String :=
  "runtime error: invalid memory address or nil pointer dereference"

/-- `errors.New(text)`: always a non-nil error. -/
def errors.New (text : String) : GoError := .errorString text

/-- `strings.Join(elems, sep)`. -/
def strings.Join (elems : List String) (sep : String) : String :=
  sep.intercalate elems

/-! ## Constants (tmdb.go 14-16) -/

def baseURL : String := "https://api.themoviedb.org/3"
def posterBaseURL : String := "https://image.tmdb.org/t/p/w500/"
def backdropBaseURL : String := "https://image.tmdb.org/t/p/w780/"

/-! ## Data model (tmdb.go 25-57, 212-217) -/

/-- Go `TMDB`. -/
structure TMDB where
  APIKey : String := ""
deriving DecidableEq, Repr

/-- Go `NewTmdb`. -/
def NewTmdb (apiKey : String) : TMDB :=
  let tmdb : TMDB := {}
  { tmdb with APIKey := apiKey }

/-- Go `Genre`. -/
structure Genre where
  Name : String := ""
deriving DecidableEq, Repr

/-- Go `Movie`; the defaults are the zero value `new(Movie)` points to. -/
structure Movie where
  ID : Int := 0
  ImdbID : String := ""
  Title : String := ""
  OriginalTitle : String := ""
  Tagline : String := ""
  Overview : String := ""
  Genres : List Genre := []
  Runtime : Int := 0
  ReleaseDate : String := ""
  Backdrop : String := ""
  Poster : String := ""
  Adult : Bool := false
deriving DecidableEq, Repr

/-- Go `SearchResult`; the defaults are the zero value. -/
structure SearchResult where
  Page : Int := 0
  Results : List Movie := []
  TotalResults : Int := 0
  TotalPages : Int := 0
deriving DecidableEq, Repr

/-- Go `ResponseError`; the defaults are the zero value. -/
structure ResponseError where
  Code : Int := 0
  Message : String := ""
  Errors : List String := []
deriving DecidableEq, Repr

/-! ## Image URLs (tmdb.go 59-73) -/

/-- Go `(*Movie).GetPosterURL`; `fmt.Sprintf("%s%s", a, b)` is `a ++ b`. -/
def Movie.GetPosterURL (m : Movie) : String :=
  if m.Poster = "" then
    ""
  else
    posterBaseURL ++ m.Poster

/-- Go `(*Movie).GetBackdropURL`. -/
def Movie.GetBackdropURL (m : Movie) : String :=
  if m.Backdrop = "" then
    ""
  else
    backdropBaseURL ++ m.Backdrop

/-! ## net/url (Go standard library), as far as the package uses it -/

/-- The digits `url.escape` writes after a percent sign. -/
def upperhex : List Char := "0123456789ABCDEF".toList

/-- `upperhex[n]`. -/
def hexDigit (n : Nat) : Char := upperhex.getD n '0'

/-- Characters `url.shouldEscape(c, encodeQueryComponent)` leaves alone:
ASCII letters and digits and the marks `-`, `_`, `.`, `~`. -/
def unreserved (c : Char) : Bool :=
  (decide ('a' ≤ c) && decide (c ≤ 'z')) || (decide ('A' ≤ c) && decide (c ≤ 'Z')) ||
    (decide ('0' ≤ c) && decide (c ≤ '9')) ||
    c == '-' || c == '_' || c == '.' || c == '~'

/-- One escaped byte: `%XX` in upper-case hexadecimal. -/
def escapeByte (b : UInt8) : List Char :=
  ['%', hexDigit (b.toNat / 16), hexDigit (b.toNat % 16)]

/-- What `url.QueryEscape` writes for one character: itself when unreserved,
`+` for a space, and otherwise `%XX` for each byte of its UTF-8 encoding. -/
def escapeChar (c : Char) : List Char :=
  if unreserved c then [c]
  else if c = ' ' then ['+']
  else (String.utf8EncodeChar c).flatMap escapeByte

/-- Go `url.QueryEscape`. -/
def url.QueryEscape (s : String) : String :=
  String.mk (s.toList.flatMap escapeChar)

/-- Go `url.Values`: a map from key to the list of its values. -/
abbrev Values := List (String × List String)

/-- Go `Values.Set`: the key is bound to the single value, replacing any
earlier binding. -/
def Values.Set : Values → String → String → Values
  | [], key, value => [(key, [value])]
  | (k, vs) :: rest, key, value =>
    if k = key then (key, [value]) :: rest else (k, vs) :: Values.Set rest key value

/-- The values bound to a key, `v[key]`; none when the key is absent. -/
def Values.lookupAll (v : Values) (key : String) : List String :=
  (v.lookup key).getD []

/-- Go `Values.Encode`: `key=value` pairs, both escaped, sorted by key and
joined with `&`. -/
def Values.Encode (v : Values) : String :=
  let keys := (v.map Prod.fst).insertionSort (fun a b => a ≤ b)
  "&".intercalate
    (keys.flatMap fun k =>
      (Values.lookupAll v k).map fun x => url.QueryEscape k ++ "=" ++ url.QueryEscape x)

/-- Go `url.URL`, the fields the package touches. -/
structure URL where
  Scheme : String := ""
  Host : String := ""
  Path : String := ""
  RawQuery : String := ""
deriving DecidableEq, Repr

/-- What `url.Parse(baseURL)` returns: the three components of the constant
`baseURL` and a nil error. -/
def url.Parse (_rawurl : String) : URL × Option GoError :=
  ({ Scheme := "https", Host := "api.themoviedb.org", Path := "/3", RawQuery := "" }, none)

/-- Go `(*URL).Query` for a URL whose `RawQuery` is empty, which is the only
case the package has: the empty map. -/
def URL.Query (_u : URL) : Values := []

/-- Go `(*URL).String` for the URLs the package builds (scheme and host set, a
path of letters, digits, `/` and `-`, which needs no escaping). -/
def URL.String (u : URL) : String :=
  u.Scheme ++ "://" ++ u.Host ++ u.Path ++ (if u.RawQuery = "" then "" else "?" ++ u.RawQuery)

/-! ## net/http and io/ioutil -/

/-- Go `http.Header`: a map from canonical header name to its values. -/
abbrev Header := List (String × List String)

/-- Go `Header.Get`: the first value of the header, `""` when there is none. -/
def Header.Get (h : Header) (key : String) : String :=
  match h.lookup key with
  | some (v :: _) => v
  | _ => ""

/-- A response body as a reader: the bytes still unread, the error the reader
reports instead of end-of-file (if any), how often it has been read to the
end, and whether it has been closed. -/
structure Body where
  data : String := ""
  failure : Option GoError := none
  reads : Nat := 0
  closed : Bool := false
deriving DecidableEq, Repr

/-- Go `ioutil.ReadAll`: everything up to end-of-file or the first error; the
reader is left drained. -/
def ioutil.ReadAll (b : Body) : (String × Option GoError) × Body :=
  ((b.data, b.failure), { b with data := "", reads := b.reads + 1 })

/-- Go `Body.Close`. -/
def Body.Close (b : Body) : Body := { b with closed := true }

/-- Go `http.Response`, the fields the package touches. -/
structure Response where
  StatusCode : Int := 0
  Header : Header := []
  Body : Body := {}
deriving DecidableEq, Repr

/-- The world outside the package: the HTTP client and `json.Unmarshal` at the
three target types it is called with. A decoder receives the bytes and the
current target and gives the target afterwards and the error; the target of
the error decoder is the pointer `responseErr` itself (the code passes
`&responseErr`), so the decoder may leave it `nil`. -/
structure Env where
  Get : String → Option Response × Option GoError
  unmarshalMovie : String → Movie → Movie × Option GoError
  unmarshalSearchResult : String → SearchResult → SearchResult × Option GoError
  unmarshalResponseError :
    String → Option ResponseError → Option ResponseError × Option GoError

/-! ## Response classification (tmdb.go 161-210) -/

/-- Go `getError`. Returns the error and the response with its body as the
function left it. The verb `%d` of `fmt.Errorf` writes the status code in
decimal, which is what `toString` does on an integer. -/
def getError (env : Env) (response : Response) : Outcome (Option GoError × Response) :=
  let responseErr : Option ResponseError := some {}
  let contentType := Header.Get response.Header "Content-Type"
  if contentType ≠ "application/json;charset=utf-8" ∧ contentType ≠ "application/json" then
    let err := GoError.errorString
      ("Invalid response status code (" ++ toString response.StatusCode ++ ")")
    .returned (some err, response)
  else
    let ((buf, err), body) := ioutil.ReadAll response.Body
    let response := { response with Body := body }
    match err with
    | some e => .returned (some e, response)
    | none =>
      let (responseErr, err) := env.unmarshalResponseError buf responseErr
      match err with
      | some e => .returned (some e, response)
      | none =>
        match responseErr with
        | none => .panicked nilDereference
        | some re =>
          let re :=
            if re.Message = "" ∧ re.Errors.length > 0 then
              { re with Message := strings.Join re.Errors "," }
            else re
          .returned (some (errors.New re.Message), response)

/-- What `processResponse` leaves behind when it returns: the error, the
target of the decoding, and the body of the response. -/
structure Processed (T : Type) where
  err : Option GoError
  result : T
  body : Body
deriving DecidableEq, Repr

/-- Go `processResponse`. `unmarshal` is `json.Unmarshal` at the type of
`result`. The deferred `response.Body.Close()` evaluates `response.Body` when
the `defer` statement runs, so a nil `response` panics there; the close itself
happens on every return. -/
def processResponse {T : Type} (env : Env) (unmarshal : String → T → T × Option GoError)
    (response : Option Response) (result : T) : Outcome (Processed T) :=
  match response with
  | none => .panicked nilDereference
  | some response =>
    let step : Outcome (Option GoError × Response) :=
      if response.StatusCode ≠ 200 then getError env response
      else .returned (none, response)
    match step with
    | .panicked reason => .panicked reason
    | .returned (err, response) =>
      match err with
      | some e => .returned ⟨some e, result, response.Body.Close⟩
      | none =>
        let ((buf, err), body) := ioutil.ReadAll response.Body
        match err with
        | some e => .returned ⟨some e, result, body.Close⟩
        | none =>
          let (result, err) := unmarshal buf result
          .returned ⟨err, result, body.Close⟩

/-! ## The three operations (tmdb.go 75-159) -/

/-- One call of an operation: the URLs handed to `netClient.Get`, in order,
and how the call ended. -/
structure Run (α : Type) where
  gets : List String
  outcome : Outcome α
deriving DecidableEq, Repr

/-- The query parameters `Movie` sets (tmdb.go 86-87). -/
def movieValues (u : URL) (t : TMDB) : Values :=
  let q := u.Query
  q.Set "api_key" t.APIKey

/-- The URL `Movie` builds (tmdb.go 81-88). -/
def movieURL (t : TMDB) (ID : Int) : URL × Option GoError :=
  let (u, err) := url.Parse baseURL
  match err with
  | some e => (u, some e)
  | none =>
    let u := { u with Path := u.Path ++ "/movie" ++ "/" ++ toString ID }
    let q := movieValues u t
    ({ u with RawQuery := q.Encode }, none)

/-- Go `(*TMDB).Movie`. -/
def TMDB.Movie (env : Env) (t : TMDB) (ID : Int) : Run (Themoviedb.Movie × Option GoError) :=
  let movie : Themoviedb.Movie := {}
  let (u, err) := movieURL t ID
  match err with
  | some e => ⟨[], .returned (movie, some e)⟩
  | none =>
    let (response, err) := env.Get u.String
    match err with
    | some e => ⟨[u.String], .returned (movie, some e)⟩
    | none =>
      match processResponse env env.unmarshalMovie response movie with
      | .panicked reason => ⟨[u.String], .panicked reason⟩
      | .returned p => ⟨[u.String], .returned (p.result, p.err)⟩

/-- The query parameters `Popular` sets (tmdb.go 115-116). -/
def popularValues (u : URL) (t : TMDB) : Values :=
  let q := u.Query
  q.Set "api_key" t.APIKey

/-- The URL `Popular` builds (tmdb.go 110-117). -/
def popularURL (t : TMDB) : URL × Option GoError :=
  let (u, err) := url.Parse baseURL
  match err with
  | some e => (u, some e)
  | none =>
    let u := { u with Path := u.Path ++ "/movie/popular" }
    let q := popularValues u t
    ({ u with RawQuery := q.Encode }, none)

/-- Go `(*TMDB).Popular`. -/
def TMDB.Popular (env : Env) (t : TMDB) : Run (SearchResult × Option GoError) :=
  let result : SearchResult := {}
  let (u, err) := popularURL t
  match err with
  | some e => ⟨[], .returned (result, some e)⟩
  | none =>
    let (response, err) := env.Get u.String
    match err with
    | some e => ⟨[u.String], .returned (result, some e)⟩
    | none =>
      match processResponse env env.unmarshalSearchResult response result with
      | .panicked reason => ⟨[u.String], .panicked reason⟩
      | .returned p => ⟨[u.String], .returned (p.result, p.err)⟩

/-- The query parameters `Search` sets (tmdb.go 144-147). -/
def searchValues (u : URL) (t : TMDB) (query : String) : Values :=
  let q := u.Query
  let q := q.Set "api_key" t.APIKey
  let q := q.Set "query" query
  q.Set "include_adult" "false"

/-- The URL `Search` builds (tmdb.go 139-148). -/
def searchURL (t : TMDB) (query : String) : URL × Option GoError :=
  let (u, err) := url.Parse baseURL
  match err with
  | some e => (u, some e)
  | none =>
    let u := { u with Path := u.Path ++ "/search/movie" }
    let q := searchValues u t query
    ({ u with RawQuery := q.Encode }, none)

/-- Go `(*TMDB).Search`. The error of `netClient.Get` is overwritten by the
one of `processResponse`, which is called with whatever response came back. -/
def TMDB.Search (env : Env) (t : TMDB) (query : String) :
    Run (SearchResult × Option GoError) :=
  let results : SearchResult := {}
  let (u, err) := searchURL t query
  match err with
  | some e => ⟨[], .returned (results, some e)⟩
  | none =>
    let (response, _err) := env.Get u.String
    match processResponse env env.unmarshalSearchResult response results with
    | .panicked reason => ⟨[u.String], .panicked reason⟩
    | .returned p => ⟨[u.String], .returned (p.result, p.err)⟩

/-! ## Sample decoders and transports, used to run the model on concrete input -/

/-- The error `json.Unmarshal` gives for a body that is not JSON. -/
def syntaxError : GoError :=
  .library "encoding/json" "invalid character '<' looking for beginning of value"

/-- The body of the service's answer to a wrong API key. -/
def invalidKeyBody : String :=
  "\x7b\"status_code\":7,\"status_message\":\"Invalid API key: You must be granted a valid key.\"\x7d"

/-- The body of the service's answer to an empty search query. -/
def noQueryBody : String := "\x7b\"errors\":[\"query must be provided\"]\x7d"

/-- A body with several sub-errors and no message. -/
def twoErrorsBody : String := "\x7b\"errors\":[\"page must be greater than 0\",\"query must be provided\"]\x7d"

/-- The `json.Unmarshal(buf, &responseErr)` of `encoding/json` on five bodies.
The JSON literal `null` decoded into a pointer sets that pointer to nil and is
not an error; an object fills the fields it names in the struct the pointer
refers to; anything else here is taken as a syntax error. -/
def sampleUnmarshalResponseError (data : String) (target : Option ResponseError) :
    Option ResponseError × Option GoError :=
  if data = "null" then (none, none)
  else if data = "\x7b\x7d" then (some (target.getD {}), none)
  else if data = invalidKeyBody then
    (some { target.getD {} with
      Code := 7, Message := "Invalid API key: You must be granted a valid key." }, none)
  else if data = noQueryBody then
    (some { target.getD {} with Errors := ["query must be provided"] }, none)
  else if data = twoErrorsBody then
    (some { target.getD {} with
      Errors := ["page must be greater than 0", "query must be provided"] }, none)
  else (target, some syntaxError)

/-- The `json.Unmarshal(buf, movie)` of `encoding/json` on two bodies. -/
def sampleUnmarshalMovie (data : String) (target : Movie) : Movie × Option GoError :=
  if data = "\x7b\x7d" then (target, none)
  else if data = "\x7b\"id\":293660,\"title\":\"Deadpool\"\x7d" then
    ({ target with ID := 293660, Title := "Deadpool" }, none)
  else (target, some syntaxError)

/-- The `json.Unmarshal(buf, results)` of `encoding/json` on two bodies. -/
def sampleUnmarshalSearchResult (data : String) (target : SearchResult) :
    SearchResult × Option GoError :=
  if data = "\x7b\x7d" then (target, none)
  else if data = "\x7b\"page\":1\x7d" then ({ target with Page := 1 }, none)
  else (target, some syntaxError)

/-- An environment whose transport answers every GET with `reply`. -/
def sampleEnv (reply : Option Response × Option GoError) : Env where
  Get := fun _ => reply
  unmarshalMovie := sampleUnmarshalMovie
  unmarshalSearchResult := sampleUnmarshalSearchResult
  unmarshalResponseError := sampleUnmarshalResponseError

/-- The environment `env` with a transport that fails every GET with `e` and
hands back no response. -/
def failingEnv (env : Env) (e : GoError) : Env :=
  { env with Get := fun _ => (none, some e) }

/-- A response with the given status, `Content-Type` and body. -/
def sampleResponse (status : Int) (contentType : String) (data : String) : Response :=
  { StatusCode := status, Header := [("Content-Type", [contentType])], Body := { data := data } }

/-! ## Lemmas on strings -/

theorem append_ne_empty (a b : String) (h : a ≠ "") : a ++ b ≠ "" := by
  intro hab
  apply h
  have hlen : (a ++ b).length = 0 := by rw [hab]; rfl
  rw [String.length_append] at hlen
  have ha : a.length = 0 := by omega
  cases a with
  | mk data =>
    have hd : data = [] := List.length_eq_zero.mp ha
    subst hd
    rfl

/-! ## Image URLs -/

/-- C8: `GetPosterURL` is empty exactly when `Poster` is empty, and otherwise is
the poster origin followed by `Poster`, unchanged. -/
theorem C8_poster_url (m : Movie) :
    (m.GetPosterURL = "" ↔ m.Poster = "") ∧
    (m.Poster ≠ "" → m.GetPosterURL = "https://image.tmdb.org/t/p/w500/" ++ m.Poster) := by
  unfold Movie.GetPosterURL posterBaseURL
  by_cases h : m.Poster = ""
  · simp [h]
  · simp only [h, if_false, iff_false, not_false_eq_true, true_and, implies_true, and_true]
    exact append_ne_empty _ _ (by decide)

theorem C8_poster_url_witness :
    ({ Poster := "/abc.jpg" } : Movie).Poster ≠ "" ∧
    ({ Poster := "/abc.jpg" } : Movie).GetPosterURL = "https://image.tmdb.org/t/p/w500//abc.jpg" :=
  ⟨by decide, (C8_poster_url { Poster := "/abc.jpg" }).2 (by decide)⟩

/-- C9: `GetBackdropURL` is empty exactly when `Backdrop` is empty, otherwise is
the backdrop origin followed by `Backdrop`, and two movies with the same
`Backdrop` have the same backdrop URL whatever their other fields are. -/
theorem C9_backdrop_url (m : Movie) :
    (m.GetBackdropURL = "" ↔ m.Backdrop = "") ∧
    (m.Backdrop ≠ "" → m.GetBackdropURL = "https://image.tmdb.org/t/p/w780/" ++ m.Backdrop) ∧
    (∀ m2 : Movie, m2.Backdrop = m.Backdrop → m2.GetBackdropURL = m.GetBackdropURL) := by
  unfold Movie.GetBackdropURL backdropBaseURL
  refine ⟨?_, ?_, ?_⟩
  · by_cases h : m.Backdrop = ""
    · simp [h]
    · simp only [h, if_false, iff_false]
      exact append_ne_empty _ _ (by decide)
  · intro h
    simp [h]
  · intro m2 h
    rw [h]

theorem C9_backdrop_url_witness :
    ({ Backdrop := "/b.jpg", Poster := "/p.jpg" } : Movie).Backdrop ≠ "" ∧
    ({ Backdrop := "/b.jpg", Poster := "/p.jpg" } : Movie).GetBackdropURL =
      "https://image.tmdb.org/t/p/w780//b.jpg" :=
  ⟨by decide, (C9_backdrop_url { Backdrop := "/b.jpg", Poster := "/p.jpg" }).2.1 (by decide)⟩

/-! ## Response classification -/

/-- A status other than 200 never ends in a nil error: `getError` returns an
error or panics. -/
theorem getError_err_ne_none (env : Env) (response : Response)
    (err : Option GoError) (response2 : Response)
    (h : getError env response = .returned (err, response2)) : err ≠ none := by
  unfold getError at h
  simp only at h
  split at h
  · simp at h
    rw [← h.1]; simp
  · split at h
    · simp at h; rw [← h.1]; simp
    · split at h
      · simp at h; rw [← h.1]; simp
      · split at h
        · simp at h
        · simp at h; rw [← h.1]; simp

/-- C3: a 200 response whose body reads to the end and decodes into the target
gives a nil error and the decoded value, whatever its headers are. -/
theorem C3_ok_response_decodes {T : Type} (env : Env)
    (unmarshal : String → T → T × Option GoError) (response : Response) (result v : T)
    (hstatus : response.StatusCode = 200)
    (hread : response.Body.failure = none)
    (hdecode : unmarshal response.Body.data result = (v, none)) (h : Header) :
    processResponse env unmarshal (some { response with Header := h }) result =
      .returned ⟨none, v, (ioutil.ReadAll response.Body).2.Close⟩ := by
  simp [processResponse, ioutil.ReadAll, hstatus, hread, hdecode]

theorem C3_ok_response_decodes_witness :
    processResponse (sampleEnv (none, none)) sampleUnmarshalMovie
      (some (sampleResponse 200 "text/html" "\x7b\"id\":293660,\"title\":\"Deadpool\"\x7d")) {} =
      .returned ⟨none, { ID := 293660, Title := "Deadpool" },
        { data := "", reads := 1, closed := true }⟩ :=
  C3_ok_response_decodes (sampleEnv (none, none)) sampleUnmarshalMovie
    (sampleResponse 200 "application/json" "\x7b\"id\":293660,\"title\":\"Deadpool\"\x7d")
    {} { ID := 293660, Title := "Deadpool" } rfl rfl (by decide) [("Content-Type", ["text/html"])]

/-- C4: a response with status `c` other than 200 and a `Content-Type` that is
neither of the two recognized strings gives the error
`Invalid response status code (c)`; the body is left unread and no decoder
runs. -/
theorem C4_generic_status_error {T : Type} (env : Env)
    (unmarshal : String → T → T × Option GoError) (response : Response) (result : T)
    (hstatus : response.StatusCode ≠ 200)
    (hjson : Header.Get response.Header "Content-Type" ≠ "application/json")
    (hutf8 : Header.Get response.Header "Content-Type" ≠ "application/json;charset=utf-8") :
    processResponse env unmarshal (some response) result =
      .returned ⟨some (.errorString
        ("Invalid response status code (" ++ toString response.StatusCode ++ ")")),
        result, { response.Body with closed := true }⟩ := by
  simp [processResponse, getError, hstatus, hjson, hutf8, Body.Close]

theorem C4_generic_status_error_witness :
    processResponse (sampleEnv (none, none)) sampleUnmarshalMovie
        (some (sampleResponse 401 "application/json; charset=utf-8" invalidKeyBody)) {} =
      .returned ⟨some (.errorString "Invalid response status code (401)"), {},
        { data := invalidKeyBody, reads := 0, closed := true }⟩ ∧
    processResponse (sampleEnv (none, none)) sampleUnmarshalSearchResult
        (some { StatusCode := 502, Header := [], Body := { data := "<html>" } }) {} =
      .returned ⟨some (.errorString "Invalid response status code (502)"), {},
        { data := "<html>", reads := 0, closed := true }⟩ :=
  ⟨C4_generic_status_error (sampleEnv (none, none)) sampleUnmarshalMovie
      (sampleResponse 401 "application/json; charset=utf-8" invalidKeyBody) {}
      (by decide) (by decide) (by decide),
   C4_generic_status_error (sampleEnv (none, none)) sampleUnmarshalSearchResult
      { StatusCode := 502, Header := [], Body := { data := "<html>" } } {}
      (by decide) (by decide) (by decide)⟩

/-- C5: a response with a status other than 200, a recognized JSON
`Content-Type` and a body that decodes to a `ResponseError` with message `m`
and sub-errors `es` gives an error whose message is `m` when `m` is not empty,
and the sub-errors joined with `,` when `m` is empty and `es` is not. -/
theorem C5_structured_error_message {T : Type} (env : Env)
    (unmarshal : String → T → T × Option GoError) (response : Response) (result : T)
    (code : Int) (m : String) (es : List String)
    (hstatus : response.StatusCode ≠ 200)
    (hct : Header.Get response.Header "Content-Type" = "application/json" ∨
      Header.Get response.Header "Content-Type" = "application/json;charset=utf-8")
    (hread : response.Body.failure = none)
    (hdecode : env.unmarshalResponseError response.Body.data (some {}) =
      (some { Code := code, Message := m, Errors := es }, none)) :
    ∃ e : GoError,
      processResponse env unmarshal (some response) result =
        .returned ⟨some e, result, (ioutil.ReadAll response.Body).2.Close⟩ ∧
      (m ≠ "" → e.Error = m) ∧
      (m = "" → es ≠ [] → e.Error = ",".intercalate es) := by
  have hgate : ¬ (Header.Get response.Header "Content-Type" ≠ "application/json;charset=utf-8" ∧
      Header.Get response.Header "Content-Type" ≠ "application/json") := by
    rcases hct with h | h <;> simp [h]
  by_cases hm : m = ""
  · by_cases hes : es = []
    · refine ⟨.errorString "", ?_, ?_, ?_⟩
      · simp [processResponse, getError, hstatus, hgate, ioutil.ReadAll, hread, hdecode, hm, hes,
          errors.New]
      · intro h; exact absurd hm h
      · intro _ h; exact absurd hes h
    · have hlen : 0 < es.length := List.length_pos.mpr hes
      refine ⟨.errorString (",".intercalate es), ?_, ?_, ?_⟩
      · simp [processResponse, getError, hstatus, hgate, ioutil.ReadAll, hread, hdecode, hm, hlen,
          errors.New, strings.Join]
      · intro h; exact absurd hm h
      · intro _ _; rfl
  · refine ⟨.errorString m, ?_, ?_, ?_⟩
    · simp [processResponse, getError, hstatus, hgate, ioutil.ReadAll, hread, hdecode, hm,
        errors.New]
    · intro _; rfl
    · intro h; exact absurd h hm

theorem C5_structured_error_message_witness :
    (∃ e : GoError,
      processResponse (sampleEnv (none, none)) sampleUnmarshalMovie
        (some (sampleResponse 401 "application/json" invalidKeyBody)) {} =
        .returned ⟨some e, {}, { data := "", reads := 1, closed := true }⟩ ∧
      e.Error = "Invalid API key: You must be granted a valid key.") ∧
    (∃ e : GoError,
      processResponse (sampleEnv (none, none)) sampleUnmarshalMovie
        (some (sampleResponse 422 "application/json;charset=utf-8" twoErrorsBody)) {} =
        .returned ⟨some e, {}, { data := "", reads := 1, closed := true }⟩ ∧
      e.Error = "page must be greater than 0,query must be provided") :=
  ⟨(C5_structured_error_message (sampleEnv (none, none)) sampleUnmarshalMovie
      (sampleResponse 401 "application/json" invalidKeyBody) {} 7
      "Invalid API key: You must be granted a valid key." []
      (by decide) (Or.inl (by decide)) rfl (by decide)).imp
      fun _ h => ⟨h.1, h.2.1 (by decide)⟩,
   (C5_structured_error_message (sampleEnv (none, none)) sampleUnmarshalMovie
      (sampleResponse 422 "application/json;charset=utf-8" twoErrorsBody) {} 0 ""
      ["page must be greater than 0", "query must be provided"]
      (by decide) (Or.inr (by decide)) rfl (by decide)).imp
      fun _ h => ⟨h.1, h.2.2 rfl (by decide)⟩⟩

/-- C6: when a body has to be decoded and the decoder fails with `d`, the caller
receives `d`: (i) for a 200 response, and (ii) for a response with another
status and a recognized JSON `Content-Type`. -/
theorem C6_decode_error_propagates {T : Type} (env : Env)
    (unmarshal : String → T → T × Option GoError) (response : Response) (result : T)
    (d : GoError) (hread : response.Body.failure = none) :
    (∀ v : T, response.StatusCode = 200 →
      unmarshal response.Body.data result = (v, some d) →
      processResponse env unmarshal (some response) result =
        .returned ⟨some d, v, (ioutil.ReadAll response.Body).2.Close⟩) ∧
    (∀ p : Option ResponseError, response.StatusCode ≠ 200 →
      (Header.Get response.Header "Content-Type" = "application/json" ∨
        Header.Get response.Header "Content-Type" = "application/json;charset=utf-8") →
      env.unmarshalResponseError response.Body.data (some {}) = (p, some d) →
      processResponse env unmarshal (some response) result =
        .returned ⟨some d, result, (ioutil.ReadAll response.Body).2.Close⟩) := by
  constructor
  · intro v hstatus hdecode
    simp [processResponse, ioutil.ReadAll, hstatus, hread, hdecode]
  · intro p hstatus hct hdecode
    have hgate : ¬ (Header.Get response.Header "Content-Type" ≠ "application/json;charset=utf-8" ∧
        Header.Get response.Header "Content-Type" ≠ "application/json") := by
      rcases hct with h | h <;> simp [h]
    simp [processResponse, getError, hstatus, hgate, ioutil.ReadAll, hread, hdecode]

theorem C6_decode_error_propagates_witness :
    processResponse (sampleEnv (none, none)) sampleUnmarshalMovie
        (some (sampleResponse 200 "application/json" "<html>")) {} =
      .returned ⟨some syntaxError, {}, { data := "", reads := 1, closed := true }⟩ ∧
    processResponse (sampleEnv (none, none)) sampleUnmarshalMovie
        (some (sampleResponse 502 "application/json" "<html>")) {} =
      .returned ⟨some syntaxError, {}, { data := "", reads := 1, closed := true }⟩ :=
  ⟨(C6_decode_error_propagates (sampleEnv (none, none)) sampleUnmarshalMovie
      (sampleResponse 200 "application/json" "<html>") {} syntaxError rfl).1 {} rfl
      (by decide),
   (C6_decode_error_propagates (sampleEnv (none, none)) sampleUnmarshalMovie
      (sampleResponse 502 "application/json" "<html>") {} syntaxError rfl).2 (some {})
      (by decide) (Or.inl (by decide)) (by decide)⟩

/-- A response with a status other than 200 either ends in a non-nil error with
the target untouched, or panics; it panics only when the error decoder reports
success and leaves the pointer `responseErr` nil. -/
theorem processResponse_status_ne_200 {T : Type} (env : Env)
    (unmarshal : String → T → T × Option GoError) (response : Response) (result : T)
    (hstatus : response.StatusCode ≠ 200) :
    (∃ e body, processResponse env unmarshal (some response) result =
        .returned ⟨some e, result, body⟩) ∨
    (processResponse env unmarshal (some response) result = .panicked nilDereference ∧
      env.unmarshalResponseError response.Body.data (some {}) = (none, none)) := by
  by_cases hgate : Header.Get response.Header "Content-Type" ≠ "application/json;charset=utf-8" ∧
      Header.Get response.Header "Content-Type" ≠ "application/json"
  · left
    exact ⟨_, _, by simp [processResponse, getError, hstatus, hgate]; exact ⟨rfl, rfl⟩⟩
  · cases hread : response.Body.failure with
    | some e =>
      left
      exact ⟨e, _, by simp [processResponse, getError, hstatus, hgate, ioutil.ReadAll, hread]; rfl⟩
    | none =>
      rcases hdecode : env.unmarshalResponseError response.Body.data (some {}) with ⟨p, err⟩
      cases err with
      | some d =>
        left
        exact ⟨d, _, by
          simp [processResponse, getError, hstatus, hgate, ioutil.ReadAll, hread, hdecode]; rfl⟩
      | none =>
        cases p with
        | none =>
          right
          exact ⟨by simp [processResponse, getError, hstatus, hgate, ioutil.ReadAll, hread,
            hdecode], rfl⟩
        | some re =>
          left
          exact ⟨_, _, by
            simp [processResponse, getError, hstatus, hgate, ioutil.ReadAll, hread, hdecode]
            exact ⟨rfl, rfl⟩⟩

/-- C7 (failing input): a 404 response with `Content-Type: application/json`
and body `null` makes `processResponse` panic instead of returning a non-nil
error, and `Movie` panics with it. -/
theorem C7_null_error_body_panics :
    processResponse (sampleEnv (none, none)) sampleUnmarshalMovie
        (some (sampleResponse 404 "application/json" "null")) {} =
      .panicked nilDereference ∧
    (TMDB.Movie (sampleEnv (some (sampleResponse 404 "application/json" "null"), none))
        { APIKey := "k" } 293660).outcome = .panicked nilDereference := by
  constructor <;> rfl

/-- C2 (failing input): when the transport fails with `e` and hands back no
response, `Movie` and `Popular` return `e` with the zero result, but `Search`
panics on the nil response. -/
theorem C2_transport_error (env : Env) (t : TMDB) (ID : Int) (query : String) (e : GoError) :
    (TMDB.Movie (failingEnv env e) t ID).outcome = .returned ({}, some e) ∧
    (TMDB.Popular (failingEnv env e) t).outcome = .returned ({}, some e) ∧
    (TMDB.Search (failingEnv env e) t query).outcome = .panicked nilDereference := by
  refine ⟨?_, ?_, ?_⟩ <;> rfl

/-! ## Request building -/

theorem hexDigit_unreserved (n : Nat) : unreserved (hexDigit n) = true := by
  by_cases h : n < 16
  · interval_cases n <;> decide
  · have hd : hexDigit n = '0' := by
      unfold hexDigit
      apply List.getD_eq_default
      simp [upperhex]
      omega
    rw [hd]
    decide

/-- Every character `url.QueryEscape` writes is an unreserved one, `+` or `%`. -/
theorem QueryEscape_chars (s : String) (c : Char) (hc : c ∈ (url.QueryEscape s).toList) :
    unreserved c = true ∨ c = '+' ∨ c = '%' := by
  unfold url.QueryEscape at hc
  simp only [String.toList, List.mem_flatMap] at hc
  obtain ⟨a, _, hca⟩ := hc
  unfold escapeChar at hca
  split at hca
  · rename_i hu
    simp at hca
    subst hca
    exact Or.inl hu
  · split at hca
    · simp at hca
      exact Or.inr (Or.inl hca)
    · simp only [List.mem_flatMap] at hca
      obtain ⟨b, _, hcb⟩ := hca
      simp [escapeByte] at hcb
      rcases hcb with h | h | h
      · exact Or.inr (Or.inr h)
      · rw [h]; exact Or.inl (hexDigit_unreserved _)
      · rw [h]; exact Or.inl (hexDigit_unreserved _)

theorem searchValues_eq (u : URL) (t : TMDB) (query : String) :
    searchValues u t query =
      [("api_key", [t.APIKey]), ("query", [query]), ("include_adult", ["false"])] := by
  simp [searchValues, URL.Query, Values.Set]

theorem sort_search_keys :
    ["api_key", "query", "include_adult"].insertionSort (fun a b => a ≤ b) =
      ["api_key", "include_adult", "query"] := by
  simp [List.insertionSort, List.orderedInsert]
  decide

theorem encode_search_values (k query : String) :
    Values.Encode [("api_key", [k]), ("query", [query]), ("include_adult", ["false"])] =
      "api_key=" ++ url.QueryEscape k ++ "&include_adult=false&query=" ++
        url.QueryEscape query := by
  simp only [Values.Encode, List.map, sort_search_keys]
  simp only [Values.lookupAll, List.lookup, List.flatMap_cons, List.flatMap_nil, List.map,
    show ("api_key" == "api_key") = true by decide,
    show ("include_adult" == "api_key") = false by decide,
    show ("include_adult" == "query") = false by decide,
    show ("include_adult" == "include_adult") = true by decide,
    show ("query" == "api_key") = false by decide,
    show ("query" == "query") = true by decide,
    Option.getD_some, List.append_nil, List.cons_append, List.nil_append,
    show url.QueryEscape "api_key" = "api_key" by decide,
    show url.QueryEscape "include_adult" = "include_adult" by decide,
    show url.QueryEscape "query" = "query" by decide,
    show url.QueryEscape "false" = "false" by decide]
  apply String.ext
  simp [String.intercalate, String.intercalate.go, String.data_append]

theorem searchURL_eq (t : TMDB) (query : String) :
    searchURL t query =
      ({ Scheme := "https", Host := "api.themoviedb.org", Path := "/3/search/movie",
         RawQuery := "api_key=" ++ url.QueryEscape t.APIKey ++ "&include_adult=false&query=" ++
           url.QueryEscape query }, none) := by
  simp only [searchURL, url.Parse, searchValues_eq, encode_search_values]
  rfl

theorem encode_api_key (k : String) :
    Values.Encode [("api_key", [k])] = "api_key=" ++ url.QueryEscape k := by
  simp only [Values.Encode, List.map, List.insertionSort, List.orderedInsert,
    Values.lookupAll, List.lookup, List.flatMap_cons, List.flatMap_nil,
    show ("api_key" == "api_key") = true by decide, Option.getD_some, List.append_nil,
    show url.QueryEscape "api_key" = "api_key" by decide]
  apply String.ext
  simp [String.intercalate, String.intercalate.go, String.data_append]

theorem movieURL_eq (t : TMDB) (ID : Int) :
    movieURL t ID =
      ({ Scheme := "https", Host := "api.themoviedb.org", Path := "/3/movie/" ++ toString ID,
         RawQuery := "api_key=" ++ url.QueryEscape t.APIKey }, none) := by
  simp only [movieURL, url.Parse, movieValues, URL.Query, Values.Set, encode_api_key]
  rfl

theorem popularURL_eq (t : TMDB) :
    popularURL t =
      ({ Scheme := "https", Host := "api.themoviedb.org", Path := "/3/movie/popular",
         RawQuery := "api_key=" ++ url.QueryEscape t.APIKey }, none) := by
  simp only [popularURL, url.Parse, popularValues, URL.Query, Values.Set, encode_api_key]
  rfl

theorem search_string (t : TMDB) (query : String) :
    (searchURL t query).1.String =
      "https://api.themoviedb.org/3/search/movie?api_key=" ++ url.QueryEscape t.APIKey ++
        "&include_adult=false&query=" ++ url.QueryEscape query := by
  rw [searchURL_eq]
  have hne : "api_key=" ++ url.QueryEscape t.APIKey ++ "&include_adult=false&query=" ++
      url.QueryEscape query ≠ "" := by
    rw [String.append_assoc, String.append_assoc]
    exact append_ne_empty _ _ (by decide)
  simp only [URL.String, hne, if_false]
  apply String.ext
  simp [String.data_append]

theorem movie_string (t : TMDB) (ID : Int) :
    (movieURL t ID).1.String =
      "https://api.themoviedb.org/3/movie/" ++ toString ID ++ "?api_key=" ++
        url.QueryEscape t.APIKey := by
  rw [movieURL_eq]
  have hne : "api_key=" ++ url.QueryEscape t.APIKey ≠ "" := append_ne_empty _ _ (by decide)
  simp only [URL.String, hne, if_false]
  apply String.ext
  simp [String.data_append]

theorem popular_string (t : TMDB) :
    (popularURL t).1.String =
      "https://api.themoviedb.org/3/movie/popular?api_key=" ++ url.QueryEscape t.APIKey := by
  rw [popularURL_eq]
  have hne : "api_key=" ++ url.QueryEscape t.APIKey ≠ "" := append_ne_empty _ _ (by decide)
  simp only [URL.String, hne, if_false]
  apply String.ext
  simp [String.data_append]

theorem search_gets (env : Env) (t : TMDB) (query : String) :
    (TMDB.Search env t query).gets = [(searchURL t query).1.String] := by
  unfold TMDB.Search
  rw [searchURL_eq]
  simp only
  split <;> rfl

theorem movie_gets (env : Env) (t : TMDB) (ID : Int) :
    (TMDB.Movie env t ID).gets = [(movieURL t ID).1.String] := by
  unfold TMDB.Movie
  rw [movieURL_eq]
  simp only
  split
  · rfl
  · split <;> rfl

theorem popular_gets (env : Env) (t : TMDB) :
    (TMDB.Popular env t).gets = [(popularURL t).1.String] := by
  unfold TMDB.Popular
  rw [popularURL_eq]
  simp only
  split
  · rfl
  · split <;> rfl

/-- C10: `Search` requests the path `/3/search/movie` with exactly the
parameters `api_key` (the key), `query` (the query) and `include_adult`
(`false`); the URL it hands to the transport is the encoding of these three,
and since an escaped value holds no `&`, `=` or `#`, text inside the key or the
query cannot add or change a parameter. `Movie` and `Popular` send `api_key`
as their only parameter. -/
theorem C10_request_parameters (env : Env) (t : TMDB) (query : String) (ID : Int) :
    (searchURL t query).1.Path = "/3/search/movie" ∧
    (∀ u : URL, searchValues u t query =
      [("api_key", [t.APIKey]), ("query", [query]), ("include_adult", ["false"])]) ∧
    (TMDB.Search env t query).gets =
      ["https://api.themoviedb.org/3/search/movie?api_key=" ++ url.QueryEscape t.APIKey ++
        "&include_adult=false&query=" ++ url.QueryEscape query] ∧
    (∀ c : Char, c ∈ (url.QueryEscape t.APIKey).toList ++ (url.QueryEscape query).toList →
      c ≠ '&' ∧ c ≠ '=' ∧ c ≠ '#') ∧
    (∀ u : URL, movieValues u t = [("api_key", [t.APIKey])]) ∧
    (∀ u : URL, popularValues u t = [("api_key", [t.APIKey])]) ∧
    (TMDB.Movie env t ID).gets =
      ["https://api.themoviedb.org/3/movie/" ++ toString ID ++ "?api_key=" ++
        url.QueryEscape t.APIKey] ∧
    (TMDB.Popular env t).gets =
      ["https://api.themoviedb.org/3/movie/popular?api_key=" ++ url.QueryEscape t.APIKey] := by
  refine ⟨?_, ?_, ?_, ?_, ?_, ?_, ?_, ?_⟩
  · rw [searchURL_eq]
  · intro u
    exact searchValues_eq u t query
  · rw [search_gets, search_string]
  · intro c hc
    have hsafe : unreserved c = true ∨ c = '+' ∨ c = '%' := by
      rcases List.mem_append.mp hc with h | h
      · exact QueryEscape_chars _ c h
      · exact QueryEscape_chars _ c h
    refine ⟨?_, ?_, ?_⟩ <;>
    · intro hEq
      rw [hEq] at hsafe
      revert hsafe
      decide
  · intro u
    rfl
  · intro u
    rfl
  · rw [movie_gets, movie_string]
  · rw [popular_gets, popular_string]

theorem C10_request_parameters_witness :
    (TMDB.Search (sampleEnv (none, none)) { APIKey := "k&y" } "x&include_adult=true").gets =
      ["https://api.themoviedb.org/3/search/movie?api_key=k%26y&include_adult=false&query=x%26include_adult%3Dtrue"] ∧
    (TMDB.Movie (sampleEnv (none, none)) { APIKey := "k&y" } 293660).gets =
      ["https://api.themoviedb.org/3/movie/293660?api_key=k%26y"] :=
  ⟨(C10_request_parameters (sampleEnv (none, none)) { APIKey := "k&y" }
      "x&include_adult=true" 293660).2.2.1,
   (C10_request_parameters (sampleEnv (none, none)) { APIKey := "k&y" }
      "x&include_adult=true" 293660).2.2.2.2.2.2.1⟩

/-! ## The empty query -/

/-- C1 (counterexample): with a transport that answers 200 and an empty JSON
object, `Search("")` issues one GET and returns a nil error. -/
theorem C1_empty_query_reaches_transport :
    (TMDB.Search (sampleEnv (some (sampleResponse 200 "application/json" "\x7b\x7d"), none))
        (NewTmdb "k") "").gets =
      ["https://api.themoviedb.org/3/search/movie?api_key=k&include_adult=false&query="] ∧
    (TMDB.Search (sampleEnv (some (sampleResponse 200 "application/json" "\x7b\x7d"), none))
        (NewTmdb "k") "").outcome = .returned ({}, none) :=
  ⟨(search_gets _ _ _).trans (congrArg (fun s => [s]) (search_string _ _)), rfl⟩

/-- C1 (amended): `Search("")` validates nothing locally. It issues exactly one
GET, for `/3/search/movie` with an empty `query`; and when the answer is a
response with a status other than 200, a recognized JSON `Content-Type` and a
body decoding to a `ResponseError` with empty message and the single sub-error
`query must be provided`, it returns the zero result and an error with exactly
that message. -/
theorem C1_empty_query_error_from_server (env : Env) (t : TMDB) :
    (TMDB.Search env t "").gets =
      ["https://api.themoviedb.org/3/search/movie?api_key=" ++ url.QueryEscape t.APIKey ++
        "&include_adult=false&query="] ∧
    ∀ (response : Response) (err : Option GoError) (code : Int),
      env.Get (searchURL t "").1.String = (some response, err) →
      response.StatusCode ≠ 200 →
      (Header.Get response.Header "Content-Type" = "application/json" ∨
        Header.Get response.Header "Content-Type" = "application/json;charset=utf-8") →
      response.Body.failure = none →
      env.unmarshalResponseError response.Body.data (some {}) =
        (some { Code := code, Message := "", Errors := ["query must be provided"] }, none) →
      (TMDB.Search env t "").outcome =
        .returned ({}, some (.errorString "query must be provided")) := by
  constructor
  · rw [search_gets, search_string, show url.QueryEscape "" = "" from rfl, String.append_empty]
  · intro response err code hget hstatus hct hread hdecode
    have hgate : ¬ (Header.Get response.Header "Content-Type" ≠ "application/json;charset=utf-8" ∧
        Header.Get response.Header "Content-Type" ≠ "application/json") := by
      rcases hct with h | h <;> simp [h]
    have hp : processResponse env env.unmarshalSearchResult (some response) {} =
        .returned ⟨some (.errorString "query must be provided"), {},
          (ioutil.ReadAll response.Body).2.Close⟩ := by
      simp [processResponse, getError, hstatus, hgate, ioutil.ReadAll, hread, hdecode,
        errors.New, strings.Join]
      rfl
    unfold TMDB.Search
    rw [searchURL_eq] at hget ⊢
    simp only [hget, hp]

theorem C1_empty_query_error_from_server_witness :
    (TMDB.Search
      (sampleEnv (some (sampleResponse 422 "application/json;charset=utf-8" noQueryBody), none))
      (NewTmdb "k") "").outcome =
      .returned ({}, some (.errorString "query must be provided")) :=
  (C1_empty_query_error_from_server
    (sampleEnv (some (sampleResponse 422 "application/json;charset=utf-8" noQueryBody), none))
    (NewTmdb "k")).2
    (sampleResponse 422 "application/json;charset=utf-8" noQueryBody) none 0 rfl
    (by decide) (Or.inr (by decide)) rfl (by decide)

end Themoviedb
